import Mathlib

/-!
Verification of the streaming / process-orchestration layer of the
claude-code-api gateway (Python sources under claude_code_api/).

Modelling conventions:
* Python strings are modelled as `List Char`.
* JSON-dict events emitted by the external CLI tool are modelled as a tagged
  union `Event` carrying the fields the translated code actually reads.
* Whitespace predicates model the ASCII subset of Python's `str.strip()` /
  `str.split()` behaviour, which is all the sources exercise.
-/

/-- ASCII whitespace, as recognised by Python's default `strip`/`split`. -/
def isPySpace (c : Char) : Bool :=
  c = ' ' || c = '\t' || c = '\n' || c = '\r' || c = '\x0b' || c = '\x0c'

/-- Model of Python `s.strip()`: drop whitespace from both ends. -/
def pyStrip (l : List Char) : List Char :=
  ((l.dropWhile isPySpace).reverse.dropWhile isPySpace).reverse

/-- Helper for the termination proofs below: dropping a matched prefix never
lengthens a list. -/
theorem listLengthDropWhileLe {α : Type} (p : α → Bool) (l : List α) :
    (l.dropWhile p).length ≤ l.length := by
  induction l with
  | nil => simp [List.dropWhile]
  | cons a l ih =>
    rw [List.dropWhile_cons]
    split
    · exact Nat.le_trans ih (Nat.le_succ _)
    · exact Nat.le_refl _

/-- Model of Python `s.split()` (no argument): split on whitespace runs,
discarding empty pieces. -/
def pySplitWS (l : List Char) : List (List Char) :=
  match l with
  | [] => []
  | c :: rest =>
    if isPySpace c then pySplitWS rest
    else (c :: rest.takeWhile (fun x => !(isPySpace x))) ::
      pySplitWS (rest.dropWhile (fun x => !(isPySpace x)))
termination_by l.length
decreasing_by
· simp only [List.length_cons]
  omega
· simp only [List.length_cons]
  exact Nat.lt_succ_of_le (listLengthDropWhileLe _ _)

/-- One element of an assistant message's content array.  A `block` is a JSON
dict whose `type` and `text` keys may each be absent (`none`); `nonDict`
covers array elements that are not dicts (`isinstance(content_item, dict)`
fails on them). -/
inductive ContentItem where
  | block (ty : Option (List Char)) (text : Option (List Char))
  | nonDict
deriving DecidableEq

/-- Whether the array element is a dict (`isinstance(content_item, dict)`). -/
def ContentItem.isDict : ContentItem → Bool
  | .block _ _ => true
  | .nonDict => false

/-- Models `content_item.get("type")`. -/
def ContentItem.getType : ContentItem → Option (List Char)
  | .block ty _ => ty
  | .nonDict => none

/-- Models `content_item.get("text")`. -/
def ContentItem.getText : ContentItem → Option (List Char)
  | .block _ t => t
  | .nonDict => none

/-- Python truthiness of an optional string: `None` and `""` are falsy. -/
def truthyOpt : Option (List Char) → Bool
  | some t => !t.isEmpty
  | none => false

/-- A message content value: a plain string, an ordered list of content
blocks, or any other JSON value (with its Python truthiness recorded). -/
inductive MessageContent where
  | str (s : List Char)
  | items (l : List ContentItem)
  | other (truthy : Bool)
deriving DecidableEq

/-- Python truthiness of a message content value. -/
def truthyMC : MessageContent → Bool
  | .str s => !s.isEmpty
  | .items l => !l.isEmpty
  | .other b => b

/-- The `for content_item in message_content` loop of
`OpenAIStreamConverter._extract_text_content` (streaming.py lines 241-247):
return `content_item["text"]` for the first dict whose `type` equals
`"text"` and whose `text` value is truthy. -/
def OpenAIStreamConverter.extractFromList : List ContentItem → List Char
  | [] => []
  | item :: rest =>
    if item.isDict ∧ item.getType = some ("text".data) ∧ truthyOpt item.getText
    then (item.getText).getD []
    else OpenAIStreamConverter.extractFromList rest

/-- Method `OpenAIStreamConverter._extract_text_content` (streaming.py lines
239-251): list input goes through the block loop, a plain string is returned
as is, anything else yields the empty string. -/
def OpenAIStreamConverter.extractTextContent : MessageContent → List Char
  | .items l => OpenAIStreamConverter.extractFromList l
  | .str s => s
  | .other _ => []

/-- The block loop of the module-level `_extract_text_content`
(streaming.py lines 526-532), translated separately because the source
duplicates the code. -/
def extractFromList : List ContentItem → List Char
  | [] => []
  | item :: rest =>
    if item.isDict ∧ item.getType = some ("text".data) ∧ truthyOpt item.getText
    then (item.getText).getD []
    else extractFromList rest

/-- Module-level `_extract_text_content` (streaming.py lines 524-536), the
copy used by the non-streaming path. -/
def extractTextContent : MessageContent → List Char
  | .items l => extractFromList l
  | .str s => s
  | .other _ => []

/-- Spec-side rendering of the amended list rule for claim C4: the text of
the first block whose kind is "text" and whose text field is present and
non-empty; empty if there is no such block. -/
def firstNonEmptyText : List ContentItem → List Char
  | [] => []
  | .block (some ty) (some t) :: rest =>
    if ty = "text".data ∧ t ≠ [] then t else firstNonEmptyText rest
  | _ :: rest => firstNonEmptyText rest

/-- The list rule exactly as claim C4 states it: the text field of the first
content block whose kind is "text" (no non-emptiness requirement). -/
def claimListRule : List ContentItem → List Char
  | [] => []
  | .block (some ty) txt :: rest =>
    if ty = "text".data then txt.getD [] else claimListRule rest
  | _ :: rest => claimListRule rest

/-- The delta computation of `OpenAIStreamConverter._stream_content`
(streaming.py lines 258-265): if `accumulated` is truthy and the new content
starts with it, only the new suffix is streamed; otherwise the whole content
is streamed. -/
def newDelta (content accumulated : List Char) : List Char :=
  if !accumulated.isEmpty && accumulated.isPrefixOf content
  then content.drop accumulated.length
  else content

/-- Character mode (streaming.py lines 267-285): one chunk per character of
the delta (the per-character delay does not affect chunk contents). -/
def charChunks (nc : List Char) : List (List Char) :=
  nc.map (fun c => [c])

/-- Word mode (streaming.py lines 287-305): one chunk per whitespace-split
word, a separating space prepended to every chunk but the first. -/
def wordChunks (nc : List Char) : List (List Char) :=
  (pySplitWS nc).enum.map (fun p => (if p.1 > 0 then [' '] else []) ++ p.2)

/-- A sentence-ending punctuation mark, ASCII or CJK, from the pattern
`[.!?。！？]` (streaming.py line 310). -/
def sentenceTerminator (c : Char) : Bool :=
  c = '.' || c = '!' || c = '?' || c = '。' || c = '！' || c = '？'

/-- Model of `re.split` with the capturing pattern `([.!?。！？]\s*)`
(streaming.py line 310): alternating segments and separators, separators
being one terminator plus the following whitespace run. `seg` is the
reversed segment accumulated so far. -/
def splitSentencePartsAux (seg : List Char) (l : List Char) : List (List Char) :=
  match l with
  | [] => [seg.reverse]
  | c :: rest =>
    if sentenceTerminator c then
      seg.reverse :: (c :: rest.takeWhile isPySpace) ::
        splitSentencePartsAux [] (rest.dropWhile isPySpace)
    else splitSentencePartsAux (c :: seg) rest
termination_by l.length
decreasing_by
· simp only [List.length_cons]
  exact Nat.lt_succ_of_le (listLengthDropWhileLe _ _)
· simp only [List.length_cons]
  omega

/-- Whether `re.search` of `[.!?。！？]\s*$` against an already-stripped string
succeeds, which happens exactly when the string is non-empty and ends in a terminator. -/
def endsWithSentenceTerminator (l : List Char) : Bool :=
  match l.getLast? with
  | some c => sentenceTerminator c
  | none => false

/-- The flush loop of sentence mode (streaming.py lines 311-329): append
each part to the current sentence and flush it as one chunk whenever the
stripped buffer ends with a terminator; returns the flushed chunks and the
unflushed remainder. -/
def sentenceFlushAux (chunks : List (List Char)) (current : List Char) :
    List (List Char) → List (List Char) × List Char
  | [] => (chunks, current)
  | part :: rest =>
    let cur := current ++ part
    if endsWithSentenceTerminator (pyStrip cur)
    then sentenceFlushAux (chunks ++ [cur]) [] rest
    else sentenceFlushAux chunks cur rest

/-- Sentence mode (streaming.py lines 307-344): split, flush at sentence
ends, and emit any non-whitespace remainder as a final chunk. -/
def sentenceChunks (nc : List Char) : List (List Char) :=
  let r := sentenceFlushAux [] [] (splitSentencePartsAux [] nc)
  if pyStrip r.2 ≠ [] then r.1 ++ [r.2] else r.1

/-- Function `OpenAIStreamConverter._stream_content` (streaming.py lines 253-358) as
the list of per-chunk delta contents it yields: nothing for whitespace-only
content, otherwise the computed delta split by the active streaming mode
(any unrecognized mode string falls through to message mode). -/
def streamContent (mode content accumulated : List Char) : List (List Char) :=
  if pyStrip content = [] then []
  else
    let nc := newDelta content accumulated
    if mode = "character".data then charChunks nc
    else if mode = "word".data then wordChunks nc
    else if mode = "sentence".data then sentenceChunks nc
    else [nc]

/-- One parsed unit of the external tool's output stream, as consumed by
`OpenAIStreamConverter.convert_stream` (streaming.py lines 95-216).  The
assistant variant carries the value at `message.content` (default `""`,
modelled as `.str []`, when absent) and the top-level `content` fallback,
plus the `partial` marker flag. -/
inductive Event where
  | assistant (msgContent topContent : MessageContent) (partFlag : Bool)
  | thinking (content : List Char)
  | toolCall (toolName : List Char) (argsRendered : Option (List Char))
  | toolResult (toolName : List Char) (result : List Char)
  | error (errorMsg errorType : List Char)
  | result (isError : Bool) (durationMs : Nat)
  | system (subtype : List Char)
  | user (content : MessageContent)
  | text (content : List Char)
  | unknown
deriving DecidableEq

/-- The request-supplied inclusion flags of the converter. -/
structure Flags where
  includeThoughts : Bool
  includeToolCalls : Bool
  includeMetadata : Bool
deriving DecidableEq

/-- streaming.py lines 114-117: take `message.content`, falling back to the
top-level `content` key when the former is falsy. -/
def resolveAssistantContent (msgContent topContent : MessageContent) : MessageContent :=
  if truthyMC msgContent then msgContent else topContent

/-- streaming.py line 142. -/
def thinkingText (c : List Char) : List Char :=
  ("\n\n💭 **Thinking:** ".data) ++ c ++ ("\n\n".data)

/-- streaming.py lines 158-161; `argsRendered` is the `json.dumps` rendering
of a truthy `arguments` dict, `none` when the dict is falsy. -/
def toolCallText (toolName : List Char) (argsRendered : Option (List Char)) : List Char :=
  ("\n\n🔧 **Tool Call:** ".data) ++ toolName ++
  (match argsRendered with
   | some a => ("\n**Arguments:** ".data) ++ a
   | none => []) ++ ("\n\n".data)

/-- streaming.py line 175. -/
def toolResultText (res : List Char) : List Char :=
  ("\n\n📋 **Tool Result:**\n".data) ++ res ++ ("\n\n".data)

/-- streaming.py line 189. -/
def errorEventText (errorMsg : List Char) : List Char :=
  ("\n\n❌ **Error:** ".data) ++ errorMsg ++ ("\n\n".data)

/-- One iteration of the `convert_stream` event loop (streaming.py lines
95-216): the chunk contents yielded for the event, the updated accumulated
text, and whether the loop breaks.  The thinking / tool-call / tool-result /
error branches yield at most their first chunk: after yielding it, the code
calls `.get` on the yielded str (lines 147, 166, 180, 194), which raises
`AttributeError`; the per-message handler (line 213) catches it and
continues with the next event, so `accumulated` is left unchanged there. -/
def stepEvent (mode : List Char) (flags : Flags) (acc : List Char) :
    Event → List (List Char) × List Char × Bool
  | .assistant mc tc _ =>
    let t := OpenAIStreamConverter.extractTextContent (resolveAssistantContent mc tc)
    if pyStrip t ≠ [] then (streamContent mode t acc, t, false)
    else ([], acc, false)
  | .thinking c =>
    if flags.includeThoughts then
      if pyStrip c ≠ [] then ((streamContent mode (thinkingText c) acc).take 1, acc, false)
      else ([], acc, false)
    else ([], acc, false)
  | .toolCall name args =>
    if flags.includeToolCalls then
      ((streamContent mode (toolCallText name args) acc).take 1, acc, false)
    else ([], acc, false)
  | .toolResult _ res =>
    if flags.includeToolCalls then
      ((streamContent mode (toolResultText res) acc).take 1, acc, false)
    else ([], acc, false)
  | .error m _ =>
    if flags.includeMetadata then
      ((streamContent mode (errorEventText m) acc).take 1, acc, false)
    else ([], acc, false)
  | .result _ _ => ([], acc, true)
  | .system _ => ([], acc, false)
  | .user _ => ([], acc, false)
  | .text _ => ([], acc, false)
  | .unknown => ([], acc, false)

/-- The event-derived chunk stream of `convert_stream` (streaming.py lines
95-216): process events in order, threading the accumulated text, stopping
at the first event whose step breaks the loop.  (The initial role chunk and
the trailing stop/[DONE] chunks are not event-derived and are outside this
model.) -/
def convertEvents (mode : List Char) (flags : Flags) (acc : List Char) :
    List Event → List (List Char)
  | [] => []
  | e :: rest =>
    match stepEvent mode flags acc e with
    | (chunks, acc2, stop) =>
      if stop then chunks else chunks ++ convertEvents mode flags acc2 rest

/-- Whether the non-streaming loop treats the event as final
(chat.py lines 342-344). -/
def isResultEvent : Event → Bool
  | .result _ _ => true
  | _ => false

/-- The non-streaming collection loop of `create_chat_completion`
(chat.py lines 285-349): append each event to `msgs`, break after appending
a result event or once more than 10 messages are collected. -/
def collectMessages (msgs : List Event) : List Event → List Event
  | [] => msgs
  | e :: rest =>
    let m := msgs ++ [e]
    if isResultEvent e || decide (m.length > 10) then m
    else collectMessages m rest

/-- State of one `ClaudeProcess` handle (claude_manager.py lines 32-41):
the two queues hold enqueued entries in order, `none` being the queue-close
sentinel. -/
structure ClaudeProcessState where
  sessionId : List Char
  projectPath : List Char
  isRunning : Bool
  outputQueue : List (Option Event)
  errorQueue : List (Option (List Char))
deriving DecidableEq

/-- Constructor `ClaudeProcess.__init__` (claude_manager.py lines 35-41): fresh handle
with empty queues, not yet running. -/
def initProcess (sessionId projectPath : List Char) : ClaudeProcessState :=
  { sessionId := sessionId
    projectPath := projectPath
    isRunning := false
    outputQueue := []
    errorQueue := [] }

/-- The synthetic error text of claude_manager.py line 138. -/
def processFailedMessage (returnCode : Int) : List Char :=
  ("Process failed with exit code ".data) ++ (toString returnCode).data

/-- The exit handling of `ClaudeProcess.start` (claude_manager.py lines
122-140): after the process exits, `is_running` is cleared; exit code 0
enqueues the close sentinel on the output queue and returns success; a
nonzero exit code enqueues the synthetic error text and a close sentinel on
the *error* queue and returns failure. -/
def finishStart (returnCode : Int) (st : ClaudeProcessState) : Bool × ClaudeProcessState :=
  let st2 := { st with isRunning := false }
  if returnCode = 0 then
    (true, { st2 with outputQueue := st2.outputQueue ++ [none] })
  else
    (false, { st2 with errorQueue :=
      st2.errorQueue ++ [some (processFailedMessage returnCode), none] })

/-- The outcome of one `await asyncio.wait_for(self.output_queue.get(),
timeout=10)` in `ClaudeProcess.get_output`: either a queue entry or a
`TimeoutError` after the 10-second bound. -/
inductive PullResult where
  | item (x : Option Event)
  | timeout
deriving DecidableEq

/-- claude_manager.py line 275. -/
def outputQueueTimeoutSeconds : Nat := 10

/-- claude_manager.py line 268. -/
def maxTimeouts : Nat := 3

/-- Generator `ClaudeProcess.get_output` (claude_manager.py lines 265-307) over a
given sequence of pull outcomes: a `none` entry (close sentinel) ends the
sequence; a delivered event is yielded and resets the timeout counter; a
timeout increments it and ends the sequence once `maxTimeouts` consecutive
timeouts have occurred.  The function always returns a (partial) list,
never an exception. -/
def getOutputAux (timeoutCount : Nat) : List PullResult → List Event
  | [] => []
  | .item none :: _ => []
  | .item (some e) :: rest => e :: getOutputAux 0 rest
  | .timeout :: rest =>
    if timeoutCount + 1 ≥ maxTimeouts then [] else getOutputAux (timeoutCount + 1) rest

/-- Entry point of `get_output`: the timeout counter starts at zero. -/
def getOutput (pulls : List PullResult) : List Event :=
  getOutputAux 0 pulls

/-- Session metadata as read back from the session store
(chat.py line 167, 171). -/
structure SessionInfo where
  isActive : Bool
deriving DecidableEq

/-- The tracked in-flight process handle as returned by
`ClaudeManager.get_session` (chat.py line 173). -/
structure TrackedProcess where
  isRunning : Bool
deriving DecidableEq

/-- The session-dispatch outcome of `create_chat_completion`
(chat.py lines 162-202): a 409 session-busy rejection, proceeding with a
resume of the named session, or proceeding with a brand-new session. -/
inductive SessionDecision where
  | conflictSessionBusy
  | proceedResume (rid : List Char)
  | proceedNew
deriving DecidableEq

/-- The session-management dispatch of `create_chat_completion`
(chat.py lines 162-202): only a request that names a session which exists
in the session store, is active, and has a tracked running handle is
rejected as busy; a named session that is missing from the store or
inactive is resumed regardless of any tracked handle; an absent session id
creates a new session. -/
def resolveSessionRequest (requestSessionId : Option (List Char))
    (sessionInfo : Option SessionInfo) (existingProcess : Option TrackedProcess) :
    SessionDecision :=
  match requestSessionId with
  | none => .proceedNew
  | some sid =>
    match sessionInfo with
    | some info =>
      if info.isActive then
        match existingProcess with
        | some p => if p.isRunning then .conflictSessionBusy else .proceedResume sid
        | none => .proceedResume sid
      else .proceedResume sid
    | none => .proceedResume sid

/-- HTTP status of the session-busy rejection (chat.py line 177). -/
def conflictHttpStatus : Nat := 409

/-- Error code of the session-busy rejection (chat.py line 182). -/
def sessionBusyErrorCode : List Char := "session_busy".data

/-- HTTP status of the session-not-found rejection (chat.py line 431). -/
def notFoundHttpStatus : Nat := 404

/-- Error code of the session-not-found rejection (chat.py line 436). -/
def sessionNotFoundErrorCode : List Char := "session_not_found".data

/-- Method `ClaudeManager.create_session` up to the construction of the handle
(claude_manager.py lines 397-427): reject when the tracked-handle count has
reached the concurrency ceiling; otherwise construct the `ClaudeProcess`
with the resume target as its session id when `resume_session` is present,
the caller-supplied id otherwise.  (The subsequent `start` call and its
exit handling are modelled by `finishStart`.) -/
def createSession (numTracked maxConcurrent : Nat)
    (sessionId projectPath : List Char) (resumeSession : Option (List Char)) :
    Except (List Char) ClaudeProcessState :=
  if numTracked ≥ maxConcurrent then
    .error (("Maximum concurrent sessions (".data) ++ (toString maxConcurrent).data
      ++ (") reached".data))
  else
    let actualSessionId :=
      match resumeSession with
      | some rid => rid
      | none => sessionId
    .ok (initProcess actualSessionId projectPath)

/-- Claim C1: in the stream converter, if the newly extracted text starts
with the current accumulated text, the emitted delta is exactly the suffix
of the new text beyond `accumulated`; if it does not start with
`accumulated`, the emitted delta is the entire new text. -/
theorem claim_C1_assistant_delta (content accumulated : List Char) :
    (accumulated.isPrefixOf content = true →
      newDelta content accumulated = content.drop accumulated.length) ∧
    (accumulated.isPrefixOf content = false →
      newDelta content accumulated = content) := by
  constructor
  · intro h
    unfold newDelta
    cases accumulated with
    | nil => simp
    | cons a as => simp [h]
  · intro h
    unfold newDelta
    simp [h]

/-- Witness for claim C1 at concrete inputs, one per branch. -/
theorem claim_C1_witness :
    (("he".data).isPrefixOf ("hello".data) = true ∧
      newDelta ("hello".data) ("he".data) = ("hello".data).drop ("he".data).length) ∧
    (("he".data).isPrefixOf ("xy".data) = false ∧
      newDelta ("xy".data) ("he".data) = "xy".data) :=
  ⟨⟨by decide, (claim_C1_assistant_delta ("hello".data) ("he".data)).1 (by decide)⟩,
   ⟨by decide, (claim_C1_assistant_delta ("xy".data) ("he".data)).2 (by decide)⟩⟩

/-- Joining the one-character chunks gives back the chunked list. -/
theorem charChunksFlatten (l : List Char) : (charChunks l).flatten = l := by
  induction l with
  | nil => rfl
  | cons c cs ih => simp [charChunks] at ih ⊢; exact ih

/-- Claim C7: concatenating in order the per-chunk contents produced by
character-mode chunking reconstructs exactly the original delta string. -/
theorem claim_C7_character_chunking (content accumulated : List Char)
    (h : pyStrip content ≠ []) :
    (streamContent ("character".data) content accumulated).flatten
      = newDelta content accumulated := by
  unfold streamContent
  rw [if_neg h]
  simp [charChunksFlatten]

/-- Witness for claim C7 at a concrete input. -/
theorem claim_C7_witness :
    pyStrip ("hi".data) ≠ [] ∧
    (streamContent ("character".data) ("hi".data) []).flatten = newDelta ("hi".data) [] :=
  ⟨by decide, claim_C7_character_chunking ("hi".data) [] (by decide)⟩

/-- Claim C6: each pull on the output queue uses the 10-second bound; a
queue-close sentinel ends the sequence; a delivered event is yielded and
resets the consecutive-timeout counter; three consecutive timeouts end the
sequence early, the consumer receiving a closed partial list rather than an
exception. -/
theorem claim_C6_output_pulls :
    outputQueueTimeoutSeconds = 10 ∧
    (∀ (c : Nat) (rest : List PullResult), getOutputAux c (.item none :: rest) = []) ∧
    (∀ rest : List PullResult,
      getOutput (.timeout :: .timeout :: .timeout :: rest) = []) ∧
    (∀ (c : Nat) (e : Event) (rest : List PullResult),
      getOutputAux c (.item (some e) :: rest) = e :: getOutputAux 0 rest) ∧
    (∀ (e : Event) (rest : List PullResult),
      getOutput (.timeout :: .timeout :: .item (some e) :: rest)
        = e :: getOutputAux 0 rest) :=
  ⟨rfl, fun _ _ => rfl, fun _ => rfl, fun _ _ _ => rfl, fun _ _ => rfl⟩

/-- Counterexample for claim C2: after a nonzero exit (code 2), the handle's
output queue is left untouched — the synthetic error and the close sentinel
go to the error queue — so the `get_output` consumer observes no error
event, contrary to the claim. -/
theorem claim_C2_counterexample :
    (finishStart 2 (initProcess ("s".data) ("p".data))).2.outputQueue = [] ∧
    (finishStart 2 (initProcess ("s".data) ("p".data))).2.errorQueue
      = [some (processFailedMessage 2), none] ∧
    getOutput (((finishStart 2 (initProcess ("s".data) ("p".data))).2.outputQueue).map
      PullResult.item) = [] :=
  ⟨rfl, rfl, rfl⟩

/-- Claim C2 (amended): when the subprocess exits with a nonzero exit code,
the handle enqueues the synthetic error text and a queue-close sentinel on
its *error* queue, leaves the output queue unchanged, and reports failure;
the `get_output` consumer therefore observes no error event. -/
theorem claim_C2_amended (returnCode : Int) (st : ClaudeProcessState)
    (h : returnCode ≠ 0) :
    finishStart returnCode st
      = (false, { st with
                  isRunning := false,
                  errorQueue := st.errorQueue
                    ++ [some (processFailedMessage returnCode), none] }) := by
  simp [finishStart, h]

/-- Witness for the amended claim C2 at a concrete input. -/
theorem claim_C2_witness :
    (2 : Int) ≠ 0 ∧
    finishStart 2 (initProcess ("s2".data) ("p".data))
      = (false, { initProcess ("s2".data) ("p".data) with
                  isRunning := false,
                  errorQueue := (initProcess ("s2".data) ("p".data)).errorQueue
                    ++ [some (processFailedMessage 2), none] }) :=
  ⟨by decide, claim_C2_amended 2 (initProcess ("s2".data) ("p".data)) (by decide)⟩

/-- Counterexample for claim C3: a request naming a session with a tracked
running in-flight handle is *not* rejected as busy when the session is
absent from the session store — the dispatch proceeds to resume, and the
orchestrator then constructs a second handle for the same session id. -/
theorem claim_C3_counterexample :
    resolveSessionRequest (some ("abc".data)) none (some { isRunning := true })
      = SessionDecision.proceedResume ("abc".data) ∧
    resolveSessionRequest (some ("abc".data)) none (some { isRunning := true })
      ≠ SessionDecision.conflictSessionBusy ∧
    createSession 1 10 ("abc".data) ("p".data) (some ("abc".data))
      = Except.ok (initProcess ("abc".data) ("p".data)) :=
  ⟨rfl, by decide, rfl⟩

/-- Claim C3 (amended): only when the named session exists in the session
store, is active, and has a tracked running handle does the request fail
with the session-busy conflict (HTTP 409, code `session_busy`, distinct
from the 404 `session_not_found` outcome); in that case no handle is
created. -/
theorem claim_C3_amended (sid : List Char) (info : SessionInfo) (p : TrackedProcess)
    (hAct : info.isActive = true) (hRun : p.isRunning = true) :
    resolveSessionRequest (some sid) (some info) (some p)
      = SessionDecision.conflictSessionBusy ∧
    conflictHttpStatus ≠ notFoundHttpStatus ∧
    sessionBusyErrorCode ≠ sessionNotFoundErrorCode := by
  refine ⟨?_, by decide, by decide⟩
  simp [resolveSessionRequest, hAct, hRun]

/-- Witness for the amended claim C3 at concrete inputs. -/
theorem claim_C3_witness :
    ({ isActive := true } : SessionInfo).isActive = true ∧
    ({ isRunning := true } : TrackedProcess).isRunning = true ∧
    (resolveSessionRequest (some ("abc".data)) (some { isActive := true })
        (some { isRunning := true }) = SessionDecision.conflictSessionBusy ∧
      conflictHttpStatus ≠ notFoundHttpStatus ∧
      sessionBusyErrorCode ≠ sessionNotFoundErrorCode) :=
  ⟨rfl, rfl, claim_C3_amended ("abc".data) { isActive := true } { isRunning := true } rfl rfl⟩

/-- Claim C8: a create-or-resume call below the concurrency ceiling with a
resume target present constructs the handle with the resume target as its
session identifier — the caller-supplied fresh id is not used — and with an
empty output queue, i.e. before any output line has been read. -/
theorem claim_C8_resume_session_id (numTracked maxConcurrent : Nat)
    (sessionId projectPath rid : List Char) (h : numTracked < maxConcurrent) :
    createSession numTracked maxConcurrent sessionId projectPath (some rid)
      = Except.ok (initProcess rid projectPath) ∧
    (initProcess rid projectPath).sessionId = rid ∧
    (initProcess rid projectPath).outputQueue = [] := by
  refine ⟨?_, rfl, rfl⟩
  unfold createSession
  rw [if_neg (by omega)]

/-- Witness for claim C8 at concrete inputs. -/
theorem claim_C8_witness :
    0 < 10 ∧
    (createSession 0 10 ("fresh".data) ("p".data) (some ("abc".data))
      = Except.ok (initProcess ("abc".data) ("p".data)) ∧
     (initProcess ("abc".data) ("p".data)).sessionId = "abc".data ∧
     (initProcess ("abc".data) ("p".data)).outputQueue = []) :=
  ⟨by decide,
   claim_C8_resume_session_id 0 10 ("fresh".data) ("p".data) ("abc".data) (by decide)⟩

/-- Counterexample for claim C4: on a list whose first "text"-kind block has
an empty text field, extraction skips it and returns the text of a later
block, so the result is not "the text field of the first content block whose
kind is text". -/
theorem claim_C4_counterexample :
    extractTextContent (.items
      [ .block (some ("text".data)) (some []),
        .block (some ("text".data)) (some ("ok".data)) ]) = "ok".data ∧
    claimListRule
      [ .block (some ("text".data)) (some []),
        .block (some ("text".data)) (some ("ok".data)) ] = [] ∧
    ("ok".data : List Char) ≠ [] :=
  ⟨by decide, by decide, by decide⟩

/-- Claim C4 (amended): text extraction returns a plain string unchanged;
on a list it returns the text of the first block whose kind is "text" and
whose text field is present and non-empty (empty if there is none); on any
other value it returns the empty string. -/
theorem claim_C4_amended :
    (∀ s, extractTextContent (.str s) = s) ∧
    (∀ l, extractTextContent (.items l) = firstNonEmptyText l) ∧
    (∀ b, extractTextContent (.other b) = []) := by
  refine ⟨fun s => rfl, fun l => ?_, fun b => rfl⟩
  show extractFromList l = firstNonEmptyText l
  induction l with
  | nil => rfl
  | cons item rest ih =>
    cases item with
    | nonDict =>
      simpa [extractFromList, firstNonEmptyText, ContentItem.isDict] using ih
    | block ty txt =>
      cases ty with
      | none =>
        simpa [extractFromList, firstNonEmptyText, ContentItem.getType,
          ContentItem.isDict] using ih
      | some tyv =>
        cases txt with
        | none =>
          simpa [extractFromList, firstNonEmptyText, ContentItem.getType,
            ContentItem.getText, ContentItem.isDict, truthyOpt] using ih
        | some t =>
          by_cases hty : tyv = "text".data
          · by_cases ht : t = []
            · subst ht
              simpa [extractFromList, firstNonEmptyText, ContentItem.getType,
                ContentItem.getText, ContentItem.isDict, truthyOpt, hty] using ih
            · simp [extractFromList, firstNonEmptyText, ContentItem.getType,
                ContentItem.getText, ContentItem.isDict, truthyOpt, hty, ht,
                List.isEmpty_iff]
          · simpa [extractFromList, firstNonEmptyText, ContentItem.getType,
              ContentItem.getText, ContentItem.isDict, truthyOpt, hty] using ih

/-- The two duplicated block loops agree on every content array. -/
theorem extractFromListEqModule (l : List ContentItem) :
    OpenAIStreamConverter.extractFromList l = extractFromList l := by
  induction l with
  | nil => rfl
  | cons item rest ih =>
    by_cases h : item.isDict ∧ item.getType = some ("text".data) ∧ truthyOpt item.getText
    · simp [OpenAIStreamConverter.extractFromList, extractFromList, h]
    · simp [OpenAIStreamConverter.extractFromList, extractFromList, h, ih]

/-- Claim C9: the converter's `_extract_text_content` method and the
module-level `_extract_text_content` function are extensionally equal — for
every message content value they return the same string. -/
theorem claim_C9_extract_equivalence (mc : MessageContent) :
    OpenAIStreamConverter.extractTextContent mc = extractTextContent mc := by
  cases mc with
  | str s => rfl
  | items l => exact extractFromListEqModule l
  | other b => rfl

/-- Claim C5: once a `result` event is consumed, event consumption ends —
the stream converter emits no event-derived chunks beyond those emitted up
to the `result`, and the non-streaming loop appends nothing after the
`result` it appended; events past the first `result` are irrelevant. -/
theorem claim_C5_result_ends :
    (∀ (mode : List Char) (flags : Flags) (acc : List Char)
        (pre rest : List Event) (b : Bool) (d : Nat),
      convertEvents mode flags acc (pre ++ Event.result b d :: rest)
        = convertEvents mode flags acc (pre ++ [Event.result b d])) ∧
    (∀ (msgs pre rest : List Event) (b : Bool) (d : Nat),
      collectMessages msgs (pre ++ Event.result b d :: rest)
        = collectMessages msgs (pre ++ [Event.result b d])) := by
  constructor
  · intro mode flags acc pre rest b d
    induction pre generalizing acc with
    | nil => rfl
    | cons e pre ih =>
      simp only [List.cons_append, convertEvents]
      rcases hs : stepEvent mode flags acc e with ⟨chunks, acc2, stop⟩
      cases stop
      · simp [ih]
      · simp
  · intro msgs pre rest b d
    induction pre generalizing msgs with
    | nil => simp [collectMessages, isResultEvent]
    | cons e pre ih =>
      simp only [List.cons_append, collectMessages]
      split
      · rfl
      · exact ih _

/-- A string all of whose characters are whitespace strips to empty. -/
theorem pyStripEqNilOfAllSpace (l : List Char) (h : ∀ c ∈ l, isPySpace c = true) :
    pyStrip l = [] := by
  unfold pyStrip
  have h1 : l.dropWhile isPySpace = [] := List.dropWhile_eq_nil_iff.mpr h
  rw [h1]
  rfl

/-- Claim C10: an assistant event whose extracted text is empty or consists
only of whitespace makes the converter emit no chunks and leaves the
accumulated text unchanged. -/
theorem claim_C10_whitespace_skip (mode : List Char) (flags : Flags)
    (acc : List Char) (mc tc : MessageContent) (pf : Bool)
    (h : ∀ c ∈ OpenAIStreamConverter.extractTextContent (resolveAssistantContent mc tc),
      isPySpace c = true) :
    stepEvent mode flags acc (.assistant mc tc pf) = ([], acc, false) := by
  have hstrip := pyStripEqNilOfAllSpace _ h
  simp [stepEvent, hstrip]

/-- Witness for claim C10 at a concrete whitespace-only assistant event. -/
theorem claim_C10_witness :
    (∀ c ∈ OpenAIStreamConverter.extractTextContent
        (resolveAssistantContent (.str (" \n".data)) (.str [])), isPySpace c = true) ∧
    stepEvent ("message".data) ⟨false, false, false⟩ ("abc".data)
      (.assistant (.str (" \n".data)) (.str []) false) = ([], "abc".data, false) :=
  ⟨by decide,
   claim_C10_whitespace_skip ("message".data) ⟨false, false, false⟩ ("abc".data)
     (.str (" \n".data)) (.str []) false (by decide)⟩
